import Mathlib

/-!
# Verification of the minitimer hierarchical timing-wheel scheduler

Shallow embedding of the core of `Curricane/minitimer` (Rust):
`src/task/frequency.rs`, `src/task/task.rs`, `src/timer/slot.rs`,
`src/timer/wheel.rs`.

Modelling conventions:
* `u64` values are modelled as `ℕ`; the one place where unsigned
  subtraction can underflow (`MulitWheel::add_task`) is modelled with the
  explicit two's-complement wrap `u64_sub` (release-mode semantics; debug
  builds panic there).
* Rust panics (`assert!`, `step_by(0)`) are modelled as `none`.
* `HashMap` / `DashMap` are modelled as association lists with
  insert-or-replace semantics; iteration order over a map's values only
  ever moves tasks with pairwise distinct keys into slots keyed by those
  same tasks, so list order is immaterial to the properties proved here.
* The task `runner` (an opaque callable) is dropped from the `Task`
  record: no claim observes it.
* Mutating Rust methods become state-passing functions returning the
  updated value (and the method's result, when it has one).
-/

namespace Minitimer

/-! ## Frequency (`src/task/frequency.rs`) -/

/-- The stream `Peekable<StepBy<RangeFrom<u64>>>`: an arithmetic
progression `head, head + step, head + 2*step, ...`. -/
structure SecondsState where
  head : ℕ
  step : ℕ
deriving DecidableEq

/-- `FrequencySeconds` (`frequency.rs`). -/
inductive FrequencySeconds where
  | Once (seconds : ℕ)
  | Repeated (seconds : ℕ)
  | CountDown (count_down : ℕ) (seconds : ℕ)
deriving DecidableEq

/-- `Default for FrequencySeconds`: `Once(ONE_MINUTE)`. -/
def FrequencySeconds.default : FrequencySeconds := .Once 60

/-- `FrequencyState` (`frequency.rs`). -/
inductive FrequencyState where
  | SecondsRepeated (state : SecondsState)
  | SecondsCountDown (count : ℕ) (state : SecondsState)
deriving DecidableEq

/-- `impl From<FrequencySeconds> for FrequencyState`, with `timestamp()`
passed in as `now`.  `none` models a panic: a failed
`assert!(seconds > 0)`, or `step_by(0)` (which panics in Rust and which
the `CountDown` arm hits whenever `count_down = 0`, since its assertion
checks `seconds` but its step is `count_down`). -/
def FrequencyState.fromFrequency (frequency : FrequencySeconds) (now : ℕ) :
    Option FrequencyState :=
  match frequency with
  | .Once seconds =>
      if seconds > 0 then
        some (.SecondsRepeated ⟨now + seconds, seconds⟩)
      else none
  | .Repeated seconds =>
      if seconds > 0 then
        some (.SecondsRepeated ⟨now + seconds, seconds⟩)
      else none
  | .CountDown count_down seconds =>
      if seconds > 0 then
        if count_down > 0 then
          some (.SecondsCountDown count_down ⟨now + seconds, count_down⟩)
        else none
      else none

/-- `Iterator::next` on the stream: yield the head, advance by the step. -/
def SecondsState.next (s : SecondsState) : Option ℕ × SecondsState :=
  (some s.head, ⟨s.head + s.step, s.step⟩)

/-- `FrequencyState::next_alarm_timestamp` (state-passing form). -/
def FrequencyState.next_alarm_timestamp :
    FrequencyState → Option ℕ × FrequencyState
  | .SecondsRepeated st => (st.next.1, .SecondsRepeated st.next.2)
  | .SecondsCountDown c st => (st.next.1, .SecondsCountDown c st.next.2)

/-- `FrequencyState::peek_alarm_timestamp`. -/
def FrequencyState.peek_alarm_timestamp : FrequencyState → Option ℕ
  | .SecondsRepeated st => some st.head
  | .SecondsCountDown _ st => some st.head

/-- `FrequencyState::down_count` (saturating decrement of the count;
`ℕ` subtraction is already saturating). -/
def FrequencyState.down_count : FrequencyState → FrequencyState
  | .SecondsRepeated st => .SecondsRepeated st
  | .SecondsCountDown c st => .SecondsCountDown (c - 1) st

/-! ## Errors (`src/error.rs`) -/

/-- `TaskError`. -/
inductive TaskError where
  | InvalidFrequency (msg : String)
deriving DecidableEq

/-! ## Guide and task (`src/timer/wheel.rs`, `src/task/task.rs`) -/

/-- `WheelCascadeGuide`. -/
structure WheelCascadeGuide where
  sec : ℕ
  min : Option ℕ
  hour : Option ℕ
  round : ℕ
deriving DecidableEq

/-- `Default for WheelCascadeGuide` (all fields zero / `None`). -/
def WheelCascadeGuide.default : WheelCascadeGuide := ⟨0, none, none, 0⟩

/-- `Task` (the opaque `runner` field is dropped). -/
structure Task where
  task_id : ℕ
  cascade_guide : WheelCascadeGuide
  frequency : FrequencyState
deriving DecidableEq

/-- `Task::next_alarm_timestamp` (state-passing form). -/
def Task.next_alarm_timestamp (t : Task) : Option ℕ × Task :=
  (t.frequency.next_alarm_timestamp.1,
   { t with frequency := t.frequency.next_alarm_timestamp.2 })

/-! ## Builder (`src/task/task.rs`) -/

/-- `TaskBuilder`. -/
structure TaskBuilder where
  task_id : ℕ
  frequency : FrequencySeconds
deriving DecidableEq

/-- `TaskBuilder::new`. -/
def TaskBuilder.new (task_id : ℕ) : TaskBuilder :=
  ⟨task_id, FrequencySeconds.default⟩

/-- `TaskBuilder::with_frequency_once_by_seconds`. -/
def TaskBuilder.with_frequency_once_by_seconds (b : TaskBuilder)
    (seconds : ℕ) : TaskBuilder :=
  { b with frequency := .Once seconds }

/-- `TaskBuilder::with_frequency_repeated_by_seconds`. -/
def TaskBuilder.with_frequency_repeated_by_seconds (b : TaskBuilder)
    (seconds : ℕ) : TaskBuilder :=
  { b with frequency := .Repeated seconds }

/-- `TaskBuilder::with_frequency_count_down_by_seconds`. -/
def TaskBuilder.with_frequency_count_down_by_seconds (b : TaskBuilder)
    (count_down seconds : ℕ) : TaskBuilder :=
  { b with frequency := .CountDown count_down seconds }

/-- `TaskBuilder::with_frequency_once_by_timestamp_seconds`, with
`utils::timestamp()` passed in as `now`.  The source computes
`timestamp.checked_sub(now).filter(|&gap| gap > 0)`, which is `Some gap`
exactly when `timestamp > now`. -/
def TaskBuilder.with_frequency_once_by_timestamp_seconds (b : TaskBuilder)
    (timestamp now : ℕ) : Except TaskError TaskBuilder :=
  if timestamp > now then
    Except.ok { b with frequency := .Once (timestamp - now) }
  else
    Except.error (.InvalidFrequency
      ("Once timestamp(" ++ toString timestamp ++
        " need greater than current timestamp(" ++ toString now ++ ")"))

/-- `TaskBuilder::spwan_async` (the runner argument is dropped).  The
outer `Option` models the panic that `FrequencyState::from` can raise;
the `Except` layer is the method's `Result<Task, TaskError>`, which the
source only ever fills with `Ok`. -/
def TaskBuilder.spwan_async (b : TaskBuilder) (now : ℕ) :
    Option (Except TaskError Task) :=
  match FrequencyState.fromFrequency b.frequency now with
  | none => none
  | some frequency =>
      some (.ok ⟨b.task_id, WheelCascadeGuide.default, frequency⟩)

/-! ## Slot (`src/timer/slot.rs`)

A `Slot` is a `HashMap<TaskId, Task>`, modelled as an association list
whose keys are kept unique by insert-or-replace. -/

/-- `Slot`. -/
structure Slot where
  task_map : List (ℕ × Task)
deriving DecidableEq

/-- `Slot::new`. -/
def Slot.new : Slot := ⟨[]⟩

/-- `HashMap::insert` keyed by `task.task_id` (insert-or-replace). -/
def Slot.add_task (s : Slot) (task : Task) : Slot :=
  ⟨(task.task_id, task) :: s.task_map.filter (fun p => p.1 != task.task_id)⟩

/-- Lookup of a task id inside a slot (`HashMap::get` by key). -/
def Slot.find (s : Slot) (task_id : ℕ) : Option Task :=
  s.task_map.lookup task_id

/-- `Slot::remove_task`: `HashMap::remove` returning the removed task. -/
def Slot.remove_task (s : Slot) (task_id : ℕ) : Option Task × Slot :=
  (s.task_map.lookup task_id,
   ⟨s.task_map.filter (fun p => p.1 != task_id)⟩)

/-! ## Wheel (`src/timer/wheel.rs`)

The `DashMap<u64, Slot>` of a wheel holds exactly the keys
`0 .. num_slots` (created by `Wheel::new`, and every removal of a key is
immediately followed by re-inserting it); it is modelled as a list of
`num_slots` slots indexed by position. -/

/-- `Wheel`. -/
structure Wheel where
  slots : List Slot
  hand : ℕ
  num_slots : ℕ
deriving DecidableEq

/-- `Wheel::new`. -/
def Wheel.new (num_slots : ℕ) : Wheel :=
  ⟨List.replicate num_slots Slot.new, 0, num_slots⟩

/-- The slot stored at a position (`slots.get(&i)`; positions outside
`0 .. num_slots` have no entry, read here as an empty slot). -/
def Wheel.slotAt (w : Wheel) (slot_num : ℕ) : Slot :=
  w.slots.getD slot_num Slot.new

/-- `Wheel::hand_move`.  `fetch_add` leaves `hand + step` in the hand;
when the carry is positive the hand is re-stored reduced modulo
`num_slots`. -/
def Wheel.hand_move (w : Wheel) (step : ℕ) : Option ℕ × Wheel :=
  if step = 0 then (none, w)
  else
    let new_hand := w.hand + step
    let carry := new_hand / w.num_slots
    if carry > 0 then
      (some carry, { w with hand := new_hand % w.num_slots })
    else
      (none, { w with hand := new_hand })

/-- `Wheel::hand_position`. -/
def Wheel.hand_position (w : Wheel) : ℕ := w.hand

/-- `Wheel::add_task`: `slots.get_mut(&slot_num).unwrap().add_task(task)`.
Every caller passes a slot number reduced modulo the wheel size, so the
`unwrap` cannot fail on a wheel built by `Wheel::new`; `List.set` is a
no-op outside the range, matching "no entry to mutate". -/
def Wheel.add_task (w : Wheel) (task : Task) (slot_num : ℕ) : Wheel :=
  { w with slots := w.slots.set slot_num ((w.slotAt slot_num).add_task task) }

/-- `Wheel::remove_task`: `if let Some(mut slot) = slots.get_mut(&slot_num)`. -/
def Wheel.remove_task (w : Wheel) (task_id : ℕ) (slot_num : ℕ) :
    Option Task × Wheel :=
  if slot_num < w.slots.length then
    let r := (w.slotAt slot_num).remove_task task_id
    (r.1, { w with slots := w.slots.set slot_num r.2 })
  else (none, w)

/-! ## MulitWheel (`src/timer/wheel.rs`) -/

/-- `WheelType`. -/
inductive WheelType where
  | Second
  | Minute
  | Hour
deriving DecidableEq

/-- `TaskTrackingInfo`. -/
structure TaskTrackingInfo where
  task_id : ℕ
  cascade_guide : WheelCascadeGuide
  wheel_type : WheelType
  slot_num : ℕ
deriving DecidableEq

/-- `MulitWheel` (the source's spelling).  The `DashMap` tracker is an
association list with unique keys. -/
structure MulitWheel where
  sec_wheel : Wheel
  min_wheel : Wheel
  hour_wheel : Wheel
  task_tracker_map : List (ℕ × TaskTrackingInfo)
deriving DecidableEq

/-- `MulitWheel::new`. -/
def MulitWheel.new : MulitWheel :=
  ⟨Wheel.new 60, Wheel.new 60, Wheel.new 24, []⟩

/-- `MulitWheel::get_wheel_positions`. -/
def MulitWheel.get_wheel_positions (w : MulitWheel) : ℕ × ℕ × ℕ :=
  (w.sec_wheel.hand, w.min_wheel.hand, w.hour_wheel.hand)

/-- The wheel named by a `WheelType` (how `remove_task` dispatches). -/
def MulitWheel.wheelOf (w : MulitWheel) : WheelType → Wheel
  | .Second => w.sec_wheel
  | .Minute => w.min_wheel
  | .Hour => w.hour_wheel

/-- `MulitWheel::cal_next_hand_position`. -/
def MulitWheel.cal_next_hand_position (w : MulitWheel)
    (next_alarm_sec : ℕ) : WheelCascadeGuide :=
  let current_second := w.sec_wheel.hand
  let current_minute := w.min_wheel.hand
  let current_hour := w.hour_wheel.hand
  let total_seconds := current_second + next_alarm_sec
  let final_sec := total_seconds % 60
  let total_minutes := current_minute + total_seconds / 60
  let final_min := total_minutes % 60
  if 60 ≤ total_seconds then
    if 60 ≤ total_minutes then
      let total_hours := current_hour + total_minutes / 60
      let final_hour := total_hours % 24
      let round := total_hours / 24
      ⟨final_sec, some final_min, some final_hour, round⟩
    else
      ⟨final_sec, some final_min, none, 0⟩
  else
    ⟨final_sec, none, none, 0⟩

/-- One step of the minute cascade: move one drained task into the
seconds wheel at its `guide.sec`. -/
def minuteCascadeStep (sw : Wheel) (p : ℕ × Task) : Wheel :=
  sw.add_task p.2 p.2.cascade_guide.sec

/-- `MulitWheel::cascade_minute_tasks_internal`: drain the minute slot
under the hand into the seconds wheel (at each task's `guide.sec`) and
replace it with an empty slot.  Note: the task tracker map is *not*
touched. -/
def MulitWheel.cascade_minute_tasks_internal (w : MulitWheel) : MulitWheel :=
  let hand := w.min_wheel.hand
  let slot := w.min_wheel.slotAt hand
  let sec_wheel := slot.task_map.foldl minuteCascadeStep w.sec_wheel
  { w with
      sec_wheel := sec_wheel,
      min_wheel := { w.min_wheel with slots := w.min_wheel.slots.set hand Slot.new } }

/-- One step of the hour cascade over the accumulator
(minute wheel, retained-slot): decrement-and-retain when `round > 0`,
else move the task to the minute wheel at `guide.min.unwrap()` (the
`unwrap` is modelled by `Option.getD 0`; the placement policy always
stores `some` there for hour-wheel residents). -/
def hourCascadeStep (acc : Wheel × Slot) (p : ℕ × Task) : Wheel × Slot :=
  let task := p.2
  if task.cascade_guide.round > 0 then
    let task := { task with
      cascade_guide := { task.cascade_guide with
        round := task.cascade_guide.round - 1 } }
    (acc.1, acc.2.add_task task)
  else
    (acc.1.add_task task (task.cascade_guide.min.getD 0), acc.2)

/-- `MulitWheel::cascade_hour_tasks_internal`: for each task in the hour
slot under the hand, decrement-and-retain when `round > 0`, else move it
to the minute wheel.  The tracker map is *not* touched. -/
def MulitWheel.cascade_hour_tasks_internal (w : MulitWheel) : MulitWheel :=
  let hand := w.hour_wheel.hand
  let slot := w.hour_wheel.slotAt hand
  let r := slot.task_map.foldl hourCascadeStep (w.min_wheel, Slot.new)
  { w with
      min_wheel := r.1,
      hour_wheel := { w.hour_wheel with slots := w.hour_wheel.slots.set hand r.2 } }

/-- `MulitWheel::tick`: advance the second hand; on carry advance the
minute hand and run the minute cascade; on a further carry advance the
hour hand and run the hour cascade.  `tick` calls the `_internal`
cascades, which do not update the tracker map. -/
def MulitWheel.tick (w : MulitWheel) : MulitWheel × Option ℕ :=
  let r1 := w.sec_wheel.hand_move 1
  let w1 := { w with sec_wheel := r1.2 }
  match r1.1 with
  | none => (w1, none)
  | some carry =>
      let r2 := w1.min_wheel.hand_move carry
      let w2 := ({ w1 with min_wheel := r2.2 }).cascade_minute_tasks_internal
      match r2.1 with
      | none => (w2, none)
      | some carry2 =>
          let r3 := w2.hour_wheel.hand_move carry2
          let w3 := ({ w2 with hour_wheel := r3.2 }).cascade_hour_tasks_internal
          (w3, r3.1)

/-- `MulitWheel::get_task_tracking_info`. -/
def MulitWheel.get_task_tracking_info (w : MulitWheel) (task_id : ℕ) :
    Option TaskTrackingInfo :=
  w.task_tracker_map.lookup task_id

/-- `DashMap::insert` into the tracker (insert-or-replace). -/
def trackerInsert (m : List (ℕ × TaskTrackingInfo)) (task_id : ℕ)
    (info : TaskTrackingInfo) : List (ℕ × TaskTrackingInfo) :=
  (task_id, info) :: m.filter (fun p => p.1 != task_id)

/-- Wrapping `u64` subtraction `a - b` (`(a + 2^64 - b) % 2^64`): the
release-mode semantics of the unchecked subtraction in
`MulitWheel::add_task`; a debug build panics when `b > a`. -/
def u64_sub (a b : ℕ) : ℕ := (a + 2 ^ 64 - b) % 2 ^ 64

/-- `MulitWheel::add_task`, with `utils::timestamp()` passed in as
`now`: consume the task's next firing timestamp, compute
`next_alarm_sec = next_exec_timestamp - timestamp()` (unchecked `u64`
subtraction), compute the guide, place the task on the hour / minute /
second wheel accordingly and insert tracking information. -/
def MulitWheel.add_task (w : MulitWheel) (task : Task) (now : ℕ) : MulitWheel :=
  match task.next_alarm_timestamp.1 with
  | none => w
  | some next_exec_timestamp =>
      let task := task.next_alarm_timestamp.2
      let next_alarm_sec := u64_sub next_exec_timestamp now
      let next_guide := w.cal_next_hand_position next_alarm_sec
      let task := { task with cascade_guide := next_guide }
      match next_guide.hour with
      | some hour =>
          { w with
              hour_wheel := w.hour_wheel.add_task task hour,
              task_tracker_map := trackerInsert w.task_tracker_map task.task_id
                ⟨task.task_id, next_guide, .Hour, hour⟩ }
      | none =>
          match next_guide.min with
          | some mi =>
              { w with
                  min_wheel := w.min_wheel.add_task task mi,
                  task_tracker_map := trackerInsert w.task_tracker_map task.task_id
                    ⟨task.task_id, next_guide, .Minute, mi⟩ }
          | none =>
              { w with
                  sec_wheel := w.sec_wheel.add_task task next_guide.sec,
                  task_tracker_map := trackerInsert w.task_tracker_map task.task_id
                    ⟨task.task_id, next_guide, .Second, next_guide.sec⟩ }

/-- `MulitWheel::remove_task`: remove the tracker entry; when one was
present, remove the task from the named wheel and slot and return it. -/
def MulitWheel.remove_task (w : MulitWheel) (task_id : ℕ) :
    Option Task × MulitWheel :=
  match w.task_tracker_map.lookup task_id with
  | none => (none, w)
  | some info =>
      let w := { w with
        task_tracker_map := w.task_tracker_map.filter (fun p => p.1 != task_id) }
      match info.wheel_type with
      | .Second =>
          let r := w.sec_wheel.remove_task task_id info.slot_num
          (r.1, { w with sec_wheel := r.2 })
      | .Minute =>
          let r := w.min_wheel.remove_task task_id info.slot_num
          (r.1, { w with min_wheel := r.2 })
      | .Hour =>
          let r := w.hour_wheel.remove_task task_id info.slot_num
          (r.1, { w with hour_wheel := r.2 })

/-- Iterated `tick` from a freshly constructed `MulitWheel`. -/
def MulitWheel.tickN : ℕ → MulitWheel
  | 0 => MulitWheel.new
  | n + 1 => (MulitWheel.tickN n).tick.1

/-- How many wheel slots of the whole structure contain a task with the
given id (used to state the single-placement invariant). -/
def MulitWheel.occupancy (w : MulitWheel) (task_id : ℕ) : ℕ :=
  (w.sec_wheel.slots.map
      (fun s => if (s.find task_id).isSome then 1 else 0)).sum +
  (w.min_wheel.slots.map
      (fun s => if (s.find task_id).isSome then 1 else 0)).sum +
  (w.hour_wheel.slots.map
      (fun s => if (s.find task_id).isSome then 1 else 0)).sum

/-! ## Specification-side guide (spec §4.4)

Written from the spec's words, to be compared with
`MulitWheel.cal_next_hand_position`. -/

/-- The guide of spec §4.4: `sec_final / min_final / hour_final / round`
from the division-chain, with the spec's placement conditions
(`round > 0 OR hour_carry > 0`, else `min_carry > 0`, else seconds). -/
def specGuide (cs cm ch delta : ℕ) : WheelCascadeGuide :=
  let total_sec := cs + delta
  let sec_final := total_sec % 60
  let min_carry := total_sec / 60
  let total_min := cm + min_carry
  let min_final := total_min % 60
  let hour_carry := total_min / 60
  let total_hour := ch + hour_carry
  let hour_final := total_hour % 24
  let round := total_hour / 24
  if round > 0 ∨ hour_carry > 0 then
    ⟨sec_final, some min_final, some hour_final, round⟩
  else if min_carry > 0 then
    ⟨sec_final, some min_final, none, 0⟩
  else
    ⟨sec_final, none, none, 0⟩

/-- **C1.** For in-range hand positions and every delay,
`cal_next_hand_position` returns exactly the guide of spec §4.4. -/
theorem cal_next_hand_position_matches_spec (w : MulitWheel)
    (hs : w.sec_wheel.hand < 60) (hm : w.min_wheel.hand < 60)
    (hh : w.hour_wheel.hand < 24) (delta : ℕ) :
    w.cal_next_hand_position delta =
      specGuide w.sec_wheel.hand w.min_wheel.hand w.hour_wheel.hand delta := by
  simp only [MulitWheel.cal_next_hand_position, specGuide]
  split_ifs <;>
    simp only [WheelCascadeGuide.mk.injEq, Option.some.injEq, and_true,
      true_and, reduceCtorEq] <;>
    omega

/-- Witness for C1 at hands (30, 20, 10), delay 5. -/
theorem cal_next_hand_position_matches_spec_witness :
    ({ MulitWheel.new with
        sec_wheel := { Wheel.new 60 with hand := 30 },
        min_wheel := { Wheel.new 60 with hand := 20 },
        hour_wheel := { Wheel.new 24 with hand := 10 } } :
      MulitWheel).cal_next_hand_position 5 =
      specGuide 30 20 10 5 :=
  cal_next_hand_position_matches_spec _ (by decide) (by decide) (by decide) 5

/-! ## Frequency stream behaviour (claims C3, C4) -/

/-- **C3.** Failing-input evaluation: the `FrequencyState` built from
`CountDown(2, 5)` at `now = 100` steps by the *count* (2), not by the
period (5): its first two timestamps are 105 and 107, where the spec
demands 105 and 110.  (The source passes `count_down` to `step_by`.) -/
theorem countdown_steps_by_count_not_period :
    FrequencyState.fromFrequency (.CountDown 2 5) 100 =
      some (.SecondsCountDown 2 ⟨105, 2⟩) ∧
    (FrequencyState.SecondsCountDown 2 ⟨105, 2⟩).next_alarm_timestamp =
      (some 105, .SecondsCountDown 2 ⟨107, 2⟩) ∧
    (FrequencyState.SecondsCountDown 2 ⟨107, 2⟩).next_alarm_timestamp.1 =
      some 107 ∧
    (107 : ℕ) ≠ 105 + 5 := by
  refine ⟨rfl, rfl, rfl, by decide⟩

/-- **C4.** Failing-input evaluation: the stream of a `Once` (and of a
`CountDown`) frequency state is infinite — `next_alarm_timestamp` keeps
returning `some` after the allotted firings, and the `CountDown` count
is never consulted.  `Once(10)` at `now = 100` fires at 110 and then
still yields `some 120`; `CountDown(1, 5)` at `now = 100` fires at 105
and then still yields `some 106` (and `peek` agrees). -/
theorem advance_never_returns_none_after_firings :
    FrequencyState.fromFrequency (.Once 10) 100 =
      some (.SecondsRepeated ⟨110, 10⟩) ∧
    (FrequencyState.SecondsRepeated ⟨110, 10⟩).next_alarm_timestamp =
      (some 110, .SecondsRepeated ⟨120, 10⟩) ∧
    (FrequencyState.SecondsRepeated ⟨120, 10⟩).next_alarm_timestamp.1 =
      some 120 ∧
    FrequencyState.fromFrequency (.CountDown 1 5) 100 =
      some (.SecondsCountDown 1 ⟨105, 1⟩) ∧
    (FrequencyState.SecondsCountDown 1 ⟨105, 1⟩).next_alarm_timestamp =
      (some 105, .SecondsCountDown 1 ⟨106, 1⟩) ∧
    (FrequencyState.SecondsCountDown 1 ⟨106, 1⟩).next_alarm_timestamp.1 =
      some 106 ∧
    (FrequencyState.SecondsCountDown 1 ⟨106, 1⟩).peek_alarm_timestamp =
      some 106 := by
  exact ⟨rfl, rfl, rfl, rfl, rfl, rfl, rfl⟩

/-! ## Build-time error behaviour (claim C9) -/

/-- Which `FrequencySeconds` make `FrequencyState::from` panic: a zero
period, or (for `CountDown`, whose step is the count) a zero count. -/
def panicsAtBuild : FrequencySeconds → Prop
  | .Once seconds => seconds = 0
  | .Repeated seconds => seconds = 0
  | .CountDown count_down seconds => seconds = 0 ∨ count_down = 0

/-- **C9 counterexample.** Building a task with a zero period does not
surface the `InvalidFrequency` error: it panics (`assert!`), modelled as
`none` rather than `some (Except.error ..)`. -/
theorem zero_period_panics_instead_of_invalid_frequency :
    ((TaskBuilder.new 1).with_frequency_once_by_seconds 0).spwan_async 100 =
      none := by
  rfl

/-- **C9 (amended).** `InvalidFrequency` is returned exactly when the
caller-supplied absolute timestamp is not strictly greater than `now`;
a zero period (or zero `CountDown` count) instead aborts the build with
a panic, not with the `InvalidFrequency` error. -/
theorem build_failure_modes (b : TaskBuilder) (timestamp now now2 : ℕ) :
    ((∃ e, b.with_frequency_once_by_timestamp_seconds timestamp now =
        .error e) ↔ timestamp ≤ now) ∧
    (b.spwan_async now2 = none ↔ panicsAtBuild b.frequency) := by
  constructor
  · constructor
    · intro ⟨e, he⟩
      by_contra hgt
      simp only [TaskBuilder.with_frequency_once_by_timestamp_seconds,
        if_pos (Nat.lt_of_not_le hgt), reduceCtorEq] at he
    · intro hle
      simp only [TaskBuilder.with_frequency_once_by_timestamp_seconds,
        if_neg (Nat.not_lt_of_le hle)]
      exact ⟨_, rfl⟩
  · cases hf : b.frequency with
    | Once seconds =>
        simp only [TaskBuilder.spwan_async, hf, FrequencyState.fromFrequency,
          panicsAtBuild]
        split_ifs with h
        · simp only [reduceCtorEq, false_iff]; omega
        · simp only [true_iff]; omega
    | Repeated seconds =>
        simp only [TaskBuilder.spwan_async, hf, FrequencyState.fromFrequency,
          panicsAtBuild]
        split_ifs with h
        · simp only [reduceCtorEq, false_iff]; omega
        · simp only [true_iff]; omega
    | CountDown count_down seconds =>
        simp only [TaskBuilder.spwan_async, hf, FrequencyState.fromFrequency,
          panicsAtBuild]
        split_ifs with h1 h2
        · simp only [reduceCtorEq, false_iff]; omega
        · simp only [true_iff]; omega
        · simp only [true_iff]; omega

/-! ## Hand arithmetic (claim C5) -/

theorem Wheel.hand_move_one_lt (w : Wheel) (h : w.hand + 1 < w.num_slots) :
    w.hand_move 1 = (none, { w with hand := w.hand + 1 }) := by
  have hc : (w.hand + 1) / w.num_slots = 0 := Nat.div_eq_of_lt h
  simp [Wheel.hand_move, hc]

theorem Wheel.hand_move_one_wrap (w : Wheel) (hn : 0 < w.num_slots)
    (h : w.hand + 1 = w.num_slots) :
    w.hand_move 1 = (some 1, { w with hand := 0 }) := by
  have h1 : (w.hand + 1) / w.num_slots = 1 := by
    rw [h]; exact Nat.div_self hn
  have h2 : (w.hand + 1) % w.num_slots = 0 := by
    rw [h]; exact Nat.mod_self _
  simp [Wheel.hand_move, h1, h2]

theorem foldl_minuteCascadeStep_hand (l : List (ℕ × Task)) (sw : Wheel) :
    (l.foldl minuteCascadeStep sw).hand = sw.hand := by
  induction l generalizing sw with
  | nil => rfl
  | cons p l ih => exact ih _

theorem foldl_minuteCascadeStep_num_slots (l : List (ℕ × Task)) (sw : Wheel) :
    (l.foldl minuteCascadeStep sw).num_slots = sw.num_slots := by
  induction l generalizing sw with
  | nil => rfl
  | cons p l ih => exact ih _

theorem foldl_hourCascadeStep_hand (l : List (ℕ × Task)) (acc : Wheel × Slot) :
    (l.foldl hourCascadeStep acc).1.hand = acc.1.hand := by
  induction l generalizing acc with
  | nil => rfl
  | cons p l ih =>
      rw [List.foldl_cons, ih]
      by_cases h : p.2.cascade_guide.round > 0 <;>
        simp [hourCascadeStep, h, Wheel.add_task]

theorem foldl_hourCascadeStep_num_slots (l : List (ℕ × Task))
    (acc : Wheel × Slot) :
    (l.foldl hourCascadeStep acc).1.num_slots = acc.1.num_slots := by
  induction l generalizing acc with
  | nil => rfl
  | cons p l ih =>
      rw [List.foldl_cons, ih]
      by_cases h : p.2.cascade_guide.round > 0 <;>
        simp [hourCascadeStep, h, Wheel.add_task]

theorem cascade_minute_internal_sec_hand (w : MulitWheel) :
    w.cascade_minute_tasks_internal.sec_wheel.hand = w.sec_wheel.hand :=
  foldl_minuteCascadeStep_hand _ _

theorem cascade_minute_internal_sec_num (w : MulitWheel) :
    w.cascade_minute_tasks_internal.sec_wheel.num_slots =
      w.sec_wheel.num_slots :=
  foldl_minuteCascadeStep_num_slots _ _

theorem cascade_minute_internal_min_hand (w : MulitWheel) :
    w.cascade_minute_tasks_internal.min_wheel.hand = w.min_wheel.hand := rfl

theorem cascade_minute_internal_min_num (w : MulitWheel) :
    w.cascade_minute_tasks_internal.min_wheel.num_slots =
      w.min_wheel.num_slots := rfl

theorem cascade_minute_internal_hour (w : MulitWheel) :
    w.cascade_minute_tasks_internal.hour_wheel = w.hour_wheel := rfl

theorem cascade_minute_internal_tracker (w : MulitWheel) :
    w.cascade_minute_tasks_internal.task_tracker_map = w.task_tracker_map := rfl

theorem cascade_hour_internal_sec (w : MulitWheel) :
    w.cascade_hour_tasks_internal.sec_wheel = w.sec_wheel := rfl

theorem cascade_hour_internal_min_hand (w : MulitWheel) :
    w.cascade_hour_tasks_internal.min_wheel.hand = w.min_wheel.hand :=
  foldl_hourCascadeStep_hand _ _

theorem cascade_hour_internal_min_num (w : MulitWheel) :
    w.cascade_hour_tasks_internal.min_wheel.num_slots =
      w.min_wheel.num_slots :=
  foldl_hourCascadeStep_num_slots _ _

theorem cascade_hour_internal_hour_hand (w : MulitWheel) :
    w.cascade_hour_tasks_internal.hour_wheel.hand = w.hour_wheel.hand := rfl

theorem cascade_hour_internal_hour_num (w : MulitWheel) :
    w.cascade_hour_tasks_internal.hour_wheel.num_slots =
      w.hour_wheel.num_slots := rfl

theorem cascade_hour_internal_tracker (w : MulitWheel) :
    w.cascade_hour_tasks_internal.task_tracker_map = w.task_tracker_map := rfl

/-- How one `tick` moves the three hands, for any in-range state of
wheels sized 60 / 60 / 24. -/
theorem tick_hand_spec (w : MulitWheel)
    (hsn : w.sec_wheel.num_slots = 60) (hmn : w.min_wheel.num_slots = 60)
    (hhn : w.hour_wheel.num_slots = 24)
    (hs : w.sec_wheel.hand < 60) (hm : w.min_wheel.hand < 60)
    (hh : w.hour_wheel.hand < 24) :
    (w.tick.1.sec_wheel.num_slots = 60 ∧ w.tick.1.min_wheel.num_slots = 60 ∧
      w.tick.1.hour_wheel.num_slots = 24) ∧
    w.tick.1.sec_wheel.hand = (w.sec_wheel.hand + 1) % 60 ∧
    w.tick.1.min_wheel.hand =
      (if w.sec_wheel.hand = 59 then (w.min_wheel.hand + 1) % 60
       else w.min_wheel.hand) ∧
    w.tick.1.hour_wheel.hand =
      (if w.sec_wheel.hand = 59 ∧ w.min_wheel.hand = 59 then
        (w.hour_wheel.hand + 1) % 24
       else w.hour_wheel.hand) := by
  by_cases h59 : w.sec_wheel.hand = 59
  · have hw : w.sec_wheel.hand_move 1 = (some 1, { w.sec_wheel with hand := 0 }) :=
      Wheel.hand_move_one_wrap _ (by omega) (by omega)
    by_cases m59 : w.min_wheel.hand = 59
    · have hwm : w.min_wheel.hand_move 1 =
          (some 1, { w.min_wheel with hand := 0 }) :=
        Wheel.hand_move_one_wrap _ (by omega) (by omega)
      by_cases h23 : w.hour_wheel.hand = 23
      · have hwh : w.hour_wheel.hand_move 1 =
            (some 1, { w.hour_wheel with hand := 0 }) :=
          Wheel.hand_move_one_wrap _ (by omega) (by omega)
        simp [MulitWheel.tick, hw, hwm, hwh,
          cascade_minute_internal_sec_hand, cascade_minute_internal_sec_num,
          cascade_minute_internal_min_hand, cascade_minute_internal_min_num,
          cascade_minute_internal_hour,
          cascade_hour_internal_sec, cascade_hour_internal_min_hand,
          cascade_hour_internal_min_num, cascade_hour_internal_hour_hand,
          cascade_hour_internal_hour_num,
          h59, m59, h23, hsn, hmn, hhn] <;> omega
      · have hwh : w.hour_wheel.hand_move 1 =
            (none, { w.hour_wheel with hand := w.hour_wheel.hand + 1 }) :=
          Wheel.hand_move_one_lt _ (by omega)
        simp [MulitWheel.tick, hw, hwm, hwh,
          cascade_minute_internal_sec_hand, cascade_minute_internal_sec_num,
          cascade_minute_internal_min_hand, cascade_minute_internal_min_num,
          cascade_minute_internal_hour,
          cascade_hour_internal_sec, cascade_hour_internal_min_hand,
          cascade_hour_internal_min_num, cascade_hour_internal_hour_hand,
          cascade_hour_internal_hour_num,
          h59, m59, h23, hsn, hmn, hhn] <;> omega
    · have hwm : w.min_wheel.hand_move 1 =
          (none, { w.min_wheel with hand := w.min_wheel.hand + 1 }) :=
        Wheel.hand_move_one_lt _ (by omega)
      simp [MulitWheel.tick, hw, hwm,
        cascade_minute_internal_sec_hand, cascade_minute_internal_sec_num,
        cascade_minute_internal_min_hand, cascade_minute_internal_min_num,
        cascade_minute_internal_hour,
        h59, m59, hsn, hmn, hhn] <;> omega
  · have hw : w.sec_wheel.hand_move 1 =
        (none, { w.sec_wheel with hand := w.sec_wheel.hand + 1 }) :=
      Wheel.hand_move_one_lt _ (by omega)
    simp [MulitWheel.tick, hw, h59, hsn, hmn, hhn] <;> omega

/-- Invariant carried through the tick induction: wheel sizes and the
three hand positions after `n` ticks. -/
theorem tickN_invariant (n : ℕ) :
    ((MulitWheel.tickN n).sec_wheel.num_slots = 60 ∧
      (MulitWheel.tickN n).min_wheel.num_slots = 60 ∧
      (MulitWheel.tickN n).hour_wheel.num_slots = 24) ∧
    (MulitWheel.tickN n).sec_wheel.hand = n % 60 ∧
    (MulitWheel.tickN n).min_wheel.hand = n / 60 % 60 ∧
    (MulitWheel.tickN n).hour_wheel.hand = n / 60 / 60 % 24 := by
  induction n with
  | zero => exact ⟨⟨rfl, rfl, rfl⟩, rfl, rfl, rfl⟩
  | succ n ih =>
      obtain ⟨⟨i1, i2, i3⟩, e1, e2, e3⟩ := ih
      obtain ⟨⟨j1, j2, j3⟩, f1, f2, f3⟩ :=
        tick_hand_spec (MulitWheel.tickN n) i1 i2 i3
          (by omega) (by omega) (by omega)
      refine ⟨⟨j1, j2, j3⟩, ?_, ?_, ?_⟩
      · show (MulitWheel.tickN n).tick.1.sec_wheel.hand = (n + 1) % 60
        omega
      · show (MulitWheel.tickN n).tick.1.min_wheel.hand = (n + 1) / 60 % 60
        rw [f2]
        split_ifs with hs59 <;> omega
      · show (MulitWheel.tickN n).tick.1.hour_wheel.hand = (n + 1) / 60 / 60 % 24
        rw [f3]
        split_ifs with hs59 <;> omega

/-- **C5.** Starting from a freshly constructed `MulitWheel` and ticking
`n` times with no insertions or removals, the hands read
`n mod 60`, `(n / 60) mod 60` and `(n / 3600) mod 24`. -/
theorem hands_after_n_ticks (n : ℕ) :
    (MulitWheel.tickN n).sec_wheel.hand = n % 60 ∧
    (MulitWheel.tickN n).min_wheel.hand = n / 60 % 60 ∧
    (MulitWheel.tickN n).hour_wheel.hand = n / 3600 % 24 := by
  obtain ⟨-, e1, e2, e3⟩ := tickN_invariant n
  refine ⟨e1, e2, ?_⟩
  rw [e3, Nat.div_div_eq_div_mul]

/-! ## Tick and the tracking index (claim C2) -/

/-- Guide of a task sitting in the minute wheel at slot 1, landing at
second 30. -/
def c2_guide : WheelCascadeGuide := ⟨30, some 1, none, 0⟩

def c2_task : Task := ⟨1, c2_guide, .SecondsRepeated ⟨160, 60⟩⟩

/-- A reachable state: second hand at 59, minute hand at 0, task 1 in
minute slot 1 with a matching tracker entry (wheel `Minute`, slot 1). -/
def c2_state : MulitWheel :=
  { MulitWheel.new with
      sec_wheel := { Wheel.new 60 with hand := 59 },
      min_wheel := { Wheel.new 60 with
        slots := (List.replicate 60 Slot.new).set 1 (Slot.new.add_task c2_task) },
      task_tracker_map := [(1, ⟨1, c2_guide, .Minute, 1⟩)] }

/-- **C2.** Failing-input evaluation: on the tick that cascades task 1
from minute slot 1 down to seconds slot 30, the tracker entry is left
untouched — it still names wheel `Minute`, slot 1, although the task now
resides in the seconds wheel (the `_internal` cascades called by `tick`
never update the tracker). -/
theorem tick_leaves_tracking_index_stale :
    (c2_state.tick.1.sec_wheel.slotAt 30).find 1 = some c2_task ∧
    (c2_state.tick.1.min_wheel.slotAt 1).find 1 = none ∧
    c2_state.tick.1.task_tracker_map = [(1, ⟨1, c2_guide, .Minute, 1⟩)] ∧
    c2_state.tick.1.get_task_tracking_info 1 = some ⟨1, c2_guide, .Minute, 1⟩ ∧
    WheelType.Minute ≠ WheelType.Second := by
  refine ⟨by decide, by decide, by decide, by decide, by decide⟩

/-! ## Past timestamps in `add_task` (claim C7) -/

/-- A task whose (already reached) firing timestamp is 99. -/
def pastTask : Task := ⟨7, WheelCascadeGuide.default, .SecondsRepeated ⟨99, 10⟩⟩

/-- **C7.** Failing-input evaluation: adding a task whose firing
timestamp 99 is one second in the past of `now = 100` makes
`next_exec_timestamp - timestamp()` wrap to `2^64 - 1` (debug builds
panic); the task is then placed on the *hour* wheel, not in the seconds
wheel at the current hand (slot 0), as the claim demands. -/
theorem add_task_past_timestamp_wraps :
    u64_sub 99 100 = 2 ^ 64 - 1 ∧
    MulitWheel.new.sec_wheel.hand = 0 ∧
    ((MulitWheel.new.add_task pastTask 100).get_task_tracking_info 7).map
      TaskTrackingInfo.wheel_type = some WheelType.Hour ∧
    ((MulitWheel.new.add_task pastTask 100).sec_wheel.slotAt 0).find 7 =
      none := by
  refine ⟨by decide, rfl, by decide, by decide⟩

/-! ## Re-adding an existing id (claim C6) -/

def c6_task1 : Task := ⟨1, WheelCascadeGuide.default, .SecondsRepeated ⟨105, 5⟩⟩

def c6_task2 : Task := ⟨1, WheelCascadeGuide.default, .SecondsRepeated ⟨165, 65⟩⟩

/-- Add task 1 firing 5 s ahead (seconds wheel, slot 5), then re-add the
same id firing 65 s ahead (minute wheel, slot 1), both at `now = 100`. -/
def c6_state : MulitWheel :=
  (MulitWheel.new.add_task c6_task1 100).add_task c6_task2 100

/-- **C6 counterexample.** After re-adding id 1, the id occupies *two*
slots (seconds slot 5 and minute slot 1): `add_task` never removes the
previous placement, so "each live task id occupies exactly one slot"
fails. -/
theorem add_existing_id_keeps_old_placement :
    c6_state.occupancy 1 = 2 := by decide

/-! ## Association-list and slot-array lemmas -/

theorem lookup_filter_ne {α : Type} (l : List (ℕ × α)) (id : ℕ) :
    (l.filter (fun p => p.1 != id)).lookup id = none := by
  induction l with
  | nil => rfl
  | cons p l ih =>
      rcases p with ⟨k, v⟩
      by_cases h : k = id
      · subst h
        simpa [List.filter_cons] using ih
      · have hbeq : (id == k) = false := by
          simp [beq_eq_false_iff_ne, Ne.symm h]
        simp [List.filter_cons, List.lookup, h, ih, hbeq, bne_iff_ne]

theorem lookup_cons_self {α : Type} (l : List (ℕ × α)) (id : ℕ) (a : α) :
    (((id, a) :: l).lookup id) = some a := by
  simp [List.lookup]

/-- Reading back the slot just written (`List.set` then `getD`). -/
theorem slotAt_set_self (l : List Slot) (i : ℕ) (s : Slot)
    (h : i < l.length) :
    (l.set i s).getD i Slot.new = s := by
  simp [List.getD, List.getElem?_set_self', List.getElem?_eq_getElem h]

/-- Reading any other slot after a write. -/
theorem slotAt_set_ne (l : List Slot) (i j : ℕ) (s : Slot) (h : i ≠ j) :
    (l.set i s).getD j Slot.new = l.getD j Slot.new := by
  simp [List.getD, List.getElem?_set_ne h]

/-- The freshly inserted task is found in its slot. -/
theorem Slot.find_add_self (s : Slot) (t : Task) :
    (s.add_task t).find t.task_id = some t := by
  simp [Slot.add_task, Slot.find, List.lookup]

/-- Removing a task id empties its map entry. -/
theorem Slot.find_remove_self (s : Slot) (id : ℕ) :
    ((s.remove_task id).2).find id = none := by
  simpa [Slot.remove_task, Slot.find] using lookup_filter_ne s.task_map id

/-! ## Removal (claims C8, C10) -/

/-- Removal of an untracked id is a no-op returning `None`. -/
theorem remove_task_untracked (w : MulitWheel) (id : ℕ)
    (h : w.task_tracker_map.lookup id = none) :
    w.remove_task id = (none, w) := by
  simp [MulitWheel.remove_task, h]

/-- A slot index holding a task is in range (out-of-range reads give the
empty slot). -/
theorem find_some_implies_lt (wheel : Wheel) (slot id : ℕ) (t : Task)
    (h : (wheel.slotAt slot).find id = some t) :
    slot < wheel.slots.length := by
  by_contra hge
  have hempty : wheel.slotAt slot = Slot.new := by
    simp [Wheel.slotAt, List.getD,
      List.getElem?_eq_none (by omega : wheel.slots.length ≤ slot)]
  rw [hempty] at h
  simp [Slot.find, Slot.new, List.lookup] at h

/-- What a successful tracked removal leaves behind: the task is
returned, the index entry and the wheel occurrence are gone, and a
second removal returns `None`. -/
def removePost (w : MulitWheel) (id : ℕ) (info : TaskTrackingInfo)
    (t : Task) : Prop :=
  (w.remove_task id).1 = some t ∧
  (w.remove_task id).2.get_task_tracking_info id = none ∧
  (((w.remove_task id).2.wheelOf info.wheel_type).slotAt
      info.slot_num).find id = none ∧
  ((w.remove_task id).2.remove_task id).1 = none

/-- **C8.** A tracked task residing at its tracked wheel and slot is
removed and returned, deleting both the wheel occurrence and the index
entry (so a second `remove` returns `None` and `tracking_info` returns
`None`); an untracked id yields `None` and leaves the state unchanged. -/
theorem remove_task_spec :
    (∀ (w : MulitWheel) (id : ℕ) (info : TaskTrackingInfo) (t : Task),
      w.get_task_tracking_info id = some info →
      ((w.wheelOf info.wheel_type).slotAt info.slot_num).find id = some t →
      removePost w id info t) ∧
    (∀ (w : MulitWheel) (id : ℕ),
      w.get_task_tracking_info id = none → w.remove_task id = (none, w)) := by
  constructor
  · intro w id info t h1 h2
    simp only [MulitWheel.get_task_tracking_info] at h1
    rcases info with ⟨tid, g, wt, slot⟩
    cases wt <;>
      (dsimp only [MulitWheel.wheelOf] at h2
       have hlt := find_some_implies_lt _ _ _ _ h2
       refine ⟨?_, ?_, ?_, ?_⟩ <;>
         simp_all [MulitWheel.remove_task, MulitWheel.wheelOf,
           MulitWheel.get_task_tracking_info, Wheel.remove_task, Wheel.slotAt,
           Slot.remove_task, Slot.find, slotAt_set_self, lookup_filter_ne])
  · intro w id h
    exact remove_task_untracked w id h

/-- Witness for C8: removing the freshly added task 1 from
`MulitWheel.new.add_task c6_task1 100`, and removing the untracked
id 2 from a fresh `MulitWheel`. -/
theorem remove_task_spec_witness :
    removePost (MulitWheel.new.add_task c6_task1 100) 1
      ⟨1, ⟨5, none, none, 0⟩, .Second, 5⟩
      ⟨1, ⟨5, none, none, 0⟩, .SecondsRepeated ⟨110, 5⟩⟩ ∧
    MulitWheel.new.remove_task 2 = (none, MulitWheel.new) :=
  ⟨remove_task_spec.1 _ 1 _ _ (by decide) (by decide),
    remove_task_spec.2 _ 2 (by decide)⟩

/-- **C10.** When the index has an entry for an id but the tracked slot
does not contain it, `remove_task` returns `None` while still deleting
the index entry. -/
theorem remove_task_ghost_entry (w : MulitWheel) (id : ℕ)
    (info : TaskTrackingInfo)
    (h1 : w.get_task_tracking_info id = some info)
    (h2 : ((w.wheelOf info.wheel_type).slotAt info.slot_num).find id = none) :
    (w.remove_task id).1 = none ∧
    (w.remove_task id).2.get_task_tracking_info id = none := by
  simp only [MulitWheel.get_task_tracking_info] at h1
  rcases info with ⟨tid, g, wt, slot⟩
  cases wt <;>
    (dsimp only [MulitWheel.wheelOf] at h2
     refine ⟨?_, ?_⟩ <;>
       (simp only [MulitWheel.remove_task, MulitWheel.wheelOf,
          MulitWheel.get_task_tracking_info, h1, Wheel.remove_task]
        (try split_ifs) <;>
          (simp_all [Slot.remove_task, Slot.find, lookup_filter_ne] <;>
            exact h2)))

/-- A state whose index names second-wheel slot 4 for id 3 although that
slot is empty. -/
def c10_state : MulitWheel :=
  { MulitWheel.new with
      task_tracker_map := [(3, ⟨3, WheelCascadeGuide.default, .Second, 4⟩)] }

/-- Witness for C10 at the ghost-entry state. -/
theorem remove_task_ghost_entry_witness :
    (c10_state.remove_task 3).1 = none ∧
    (c10_state.remove_task 3).2.get_task_tracking_info 3 = none :=
  remove_task_ghost_entry c10_state 3
    ⟨3, WheelCascadeGuide.default, .Second, 4⟩ (by decide) (by decide)

/-! ## What `add_task` really guarantees (claim C6, amended) -/

/-- The head timestamp of a frequency stream (always present: the
streams are infinite). -/
def FrequencyState.headTs : FrequencyState → ℕ
  | .SecondsRepeated st => st.head
  | .SecondsCountDown _ st => st.head

theorem FrequencyState.next_alarm_timestamp_fst (f : FrequencyState) :
    f.next_alarm_timestamp.1 = some f.headTs := by
  cases f <;> rfl

/-- The guide `add_task` computes for a task added at time `now`. -/
def MulitWheel.addGuide (w : MulitWheel) (task : Task) (now : ℕ) :
    WheelCascadeGuide :=
  w.cal_next_hand_position (u64_sub task.frequency.headTs now)

/-- The wheel and slot `add_task` places the task into. -/
def MulitWheel.addTarget (w : MulitWheel) (task : Task) (now : ℕ) :
    WheelType × ℕ :=
  match (w.addGuide task now).hour with
  | some hour => (.Hour, hour)
  | none =>
      match (w.addGuide task now).min with
      | some mi => (.Minute, mi)
      | none => (.Second, (w.addGuide task now).sec)

/-- The task as stored by `add_task`: frequency advanced, guide set. -/
def addStoredTask (w : MulitWheel) (task : Task) (now : ℕ) : Task :=
  { task.next_alarm_timestamp.2 with cascade_guide := w.addGuide task now }

/-- The slot coordinates produced by `cal_next_hand_position` are
reduced modulo the wheel sizes. -/
theorem cal_next_hand_position_bounds (w : MulitWheel) (delta : ℕ) :
    (w.cal_next_hand_position delta).sec < 60 ∧
    (∀ m, (w.cal_next_hand_position delta).min = some m → m < 60) ∧
    (∀ h, (w.cal_next_hand_position delta).hour = some h → h < 24) := by
  simp only [MulitWheel.cal_next_hand_position]
  split_ifs <;> refine ⟨?_, ?_, ?_⟩ <;> simp <;> omega

/-- Advancing a task's frequency does not change its id. -/
theorem Task.next_alarm_snd_task_id (t : Task) :
    t.next_alarm_timestamp.2.task_id = t.task_id := rfl

/-- What `add_task` does: overwrite the index entry with the newly
computed location, insert the (advanced) task at that location, and
leave every *other* slot of every wheel untouched — in particular a
previous placement of the same id elsewhere is not removed. -/
def addPost (w : MulitWheel) (task : Task) (now : ℕ) : Prop :=
  (w.add_task task now).get_task_tracking_info task.task_id =
      some ⟨task.task_id, w.addGuide task now, (w.addTarget task now).1,
        (w.addTarget task now).2⟩ ∧
  ((w.add_task task now).wheelOf (w.addTarget task now).1).slotAt
      (w.addTarget task now).2 =
    ((w.wheelOf (w.addTarget task now).1).slotAt
      (w.addTarget task now).2).add_task (addStoredTask w task now) ∧
  ∀ (wt : WheelType) (i : ℕ),
    ¬(wt = (w.addTarget task now).1 ∧ i = (w.addTarget task now).2) →
    ((w.add_task task now).wheelOf wt).slotAt i = (w.wheelOf wt).slotAt i

/-- **C6 (amended).** On wheels of the standard sizes, `add_task` does
*not* remove a previous placement of the id: it only inserts the task at
the newly computed wheel and slot and overwrites the tracker entry, so a
re-added id can occupy two slots while the index names only the newer
one. -/
theorem add_task_overwrites_index_without_removal (w : MulitWheel)
    (task : Task) (now : ℕ)
    (h1 : w.sec_wheel.slots.length = 60)
    (h2 : w.min_wheel.slots.length = 60)
    (h3 : w.hour_wheel.slots.length = 24) :
    addPost w task now := by
  obtain ⟨bsec, bmin, bhour⟩ :=
    cal_next_hand_position_bounds w (u64_sub task.frequency.headTs now)
  have hna : task.next_alarm_timestamp.1 = some task.frequency.headTs := by
    simp [Task.next_alarm_timestamp, FrequencyState.next_alarm_timestamp_fst]
  unfold addPost MulitWheel.addTarget addStoredTask MulitWheel.addGuide
  simp only [MulitWheel.add_task, hna]
  rcases hh : (w.cal_next_hand_position (u64_sub task.frequency.headTs now)).hour
    with _ | hour
  · rcases hm : (w.cal_next_hand_position (u64_sub task.frequency.headTs now)).min
      with _ | mi
    · -- seconds-wheel placement
      simp only [hh, hm, MulitWheel.get_task_tracking_info, trackerInsert,
        Task.next_alarm_snd_task_id, lookup_cons_self, MulitWheel.wheelOf]
      refine ⟨trivial, ?_, ?_⟩
      · simp only [Wheel.add_task, Wheel.slotAt]
        rw [slotAt_set_self _ _ _ (by omega)]
      · intro wt i hne
        cases wt
        · simp only [Wheel.add_task, Wheel.slotAt]
          exact slotAt_set_ne _ _ _ _ (fun hq => hne ⟨rfl, hq.symm⟩)
        · rfl
        · rfl
    · -- minute-wheel placement
      have hmi : mi < 60 := bmin mi hm
      simp only [hh, hm, MulitWheel.get_task_tracking_info, trackerInsert,
        Task.next_alarm_snd_task_id, lookup_cons_self, MulitWheel.wheelOf]
      refine ⟨trivial, ?_, ?_⟩
      · simp only [Wheel.add_task, Wheel.slotAt]
        rw [slotAt_set_self _ _ _ (by omega)]
      · intro wt i hne
        cases wt
        · rfl
        · simp only [Wheel.add_task, Wheel.slotAt]
          exact slotAt_set_ne _ _ _ _ (fun hq => hne ⟨rfl, hq.symm⟩)
        · rfl
  · -- hour-wheel placement
    have hhr : hour < 24 := bhour hour hh
    simp only [hh, MulitWheel.get_task_tracking_info, trackerInsert,
      Task.next_alarm_snd_task_id, lookup_cons_self, MulitWheel.wheelOf]
    refine ⟨trivial, ?_, ?_⟩
    · simp only [Wheel.add_task, Wheel.slotAt]
      rw [slotAt_set_self _ _ _ (by omega)]
    · intro wt i hne
      cases wt
      · rfl
      · rfl
      · simp only [Wheel.add_task, Wheel.slotAt]
        exact slotAt_set_ne _ _ _ _ (fun hq => hne ⟨rfl, hq.symm⟩)

/-- Witness for C6 (amended): re-adding id 1 (already resident in
seconds slot 5) at `now = 100`, 65 seconds ahead. -/
theorem add_task_overwrites_index_without_removal_witness :
    addPost (MulitWheel.new.add_task c6_task1 100) c6_task2 100 :=
  add_task_overwrites_index_without_removal _ _ _
    (by decide) (by decide) (by decide)

end Minitimer
